import Mathlib

/-!
Shallow embedding of `src/server.js`: the reverse-geocoding helper
`getCountryFromServerLatLng`, the `POST /api/hearts` handler and the
`GET /api/hearts` handler, together with theorems settling the
specification claims about them.
-/

namespace ILoveHere

/-- JavaScript value, restricted to the scalar fragment the handlers inspect
(request-body properties and JSON leaves). An absent object property
destructures to `undef`. -/
inductive JVal where
  | undef
  | null
  | bool (b : Bool)
  | num (n : Int)
  | str (s : String)
deriving DecidableEq, Repr

/-- JavaScript truthiness on the scalar fragment: `undefined`, `null`,
`false`, `0` and the empty string are falsy. -/
def JVal.truthy : JVal → Bool
  | .undef => false
  | .null => false
  | .bool b => b
  | .num n => n != 0
  | .str s => s != ""

/-- Address object inside a Nominatim reverse-geocoding response; the
`country` and `country_code` properties are string-valued when present. -/
structure Address where
  country : Option String
  country_code : Option String
deriving DecidableEq, Repr

/-- Parsed JSON body of a Nominatim response (the `data` of server.js line 49). -/
structure NominatimData where
  address : Option Address
deriving DecidableEq, Repr

/-- Outcome of the `fetch` to the Nominatim endpoint as observed by
`getCountryFromServerLatLng`: the response arrived with a non-success status
(line 45), the fetch or the body parse threw (network error, malformed
response), or a parsed JSON document arrived. `success none` models a falsy
`data` such as JSON `null`. -/
inductive GeoFetch where
  | notOk (status : Nat)
  | transportError
  | success (data : Option NominatimData)
deriving DecidableEq, Repr

/-- Pair returned by `getCountryFromServerLatLng`. -/
structure GeoResult where
  countryName : String
  countryCode : String
deriving DecidableEq, Repr

/-- Error thrown inside the `try` block of `getCountryFromServerLatLng`. -/
inductive GeoError where
  | networkNotOk (status : Nat)
  | transport
deriving DecidableEq, Repr

/-- JavaScript `toUpperCase()` as used on line 53, applied characterwise
(`Char.toUpper` on every character; the ASCII uppercasing of country codes). -/
def toUpperCase (s : String) : String := ⟨s.data.map Char.toUpper⟩

/-- Body of the `try` block of `getCountryFromServerLatLng` (server.js lines
43-57): a non-success response throws on line 47, a transport failure
propagates as a thrown error, and a parsed body is destructured into the
country-name/code pair, with the JavaScript falsiness of `country` and
`country_code` (empty string counts as absent) reproduced exactly. -/
def tryGetCountry : GeoFetch → Except GeoError GeoResult
  | .notOk s => .error (.networkNotOk s)
  | .transportError => .error .transport
  | .success none => .ok ⟨"the open sea", "XX"⟩
  | .success (some data) =>
    match data.address with
    | none => .ok ⟨"the open sea", "XX"⟩
    | some addr =>
      .ok ⟨match addr.country with
           | some c => if c = "" then "the open sea" else c
           | none => "the open sea",
           match addr.country_code with
           | some cc => if cc = "" then "XX" else toUpperCase cc
           | none => "XX"⟩

/-- Function `getCountryFromServerLatLng` of server.js (lines 42-62): the
`try` body together with the `catch` of lines 58-61, which maps every error
thrown inside the block to the fallback pair. -/
def getCountryFromServerLatLng (f : GeoFetch) : GeoResult :=
  match tryGetCountry f with
  | .ok r => r
  | .error _ => ⟨"an unknown location", "XX"⟩

/-- JSON request body of `POST /api/hearts` as seen by the destructuring on
line 67. The `timestamp` field models a client-supplied timestamp property in
the body; the handler never reads it. -/
structure ReqBody where
  type : JVal
  latitude : JVal
  longitude : JVal
  message : JVal
  timestamp : JVal
deriving DecidableEq, Repr

/-- Heart document as constructed by the handler on lines 76-84. The
`timestamp` is an instant (epoch milliseconds), set from the server clock. -/
structure Heart where
  type : JVal
  latitude : JVal
  longitude : JVal
  message : JVal
  countryName : String
  countryCode : String
  timestamp : Nat
deriving DecidableEq, Repr

/-- Response of the create handler. -/
inductive PostResponse where
  | badRequest (error : String)
  | created (heart : Heart)
  | serverError (error : String)
deriving DecidableEq, Repr

/-- HTTP status code of a create response (lines 70, 87, 90). -/
def PostResponse.status : PostResponse → Nat
  | .badRequest _ => 400
  | .created _ => 201
  | .serverError _ => 500

/-- Validation test of line 69:
`latitude === undefined || longitude === undefined || !type`. -/
def missingFields (b : ReqBody) : Bool :=
  b.latitude == .undef || b.longitude == .undef || !b.type.truthy

/-- Handler of `POST /api/hearts` (server.js lines 65-92). `f` is what the
Nominatim call observes for this request, `now` the server clock when
`new Date()` runs on line 83, `saveOk` whether `newHeart.save()` succeeds,
and `store` the persisted collection before the request. Returns the HTTP
response and the collection afterwards. -/
def postHearts (body : ReqBody) (f : GeoFetch) (now : Nat)
    (saveOk : Bool) (store : List Heart) : PostResponse × List Heart :=
  if missingFields body then
    (.badRequest "Missing required fields: type, latitude, longitude", store)
  else
    let geo := getCountryFromServerLatLng f
    let newHeart : Heart :=
      { type := body.type
        latitude := body.latitude
        longitude := body.longitude
        message := if body.message.truthy then body.message else .str ""
        countryName := geo.countryName
        countryCode := geo.countryCode
        timestamp := now }
    if saveOk then (.created newHeart, store ++ [newHeart])
    else (.serverError "Failed to create heart", store)

/-- Response of the list handler. -/
inductive GetResponse where
  | ok (hearts : List Heart)
  | serverError (error : String)
deriving DecidableEq, Repr

/-- HTTP status code of a list response (lines 98, 101). -/
def GetResponse.status : GetResponse → Nat
  | .ok _ => 200
  | .serverError _ => 500

/-- Sort order used by the store read on line 97: newest first, that is the
timestamp of a later element is at most the timestamp of an earlier one. -/
def tsGe (a b : Heart) : Prop := b.timestamp ≤ a.timestamp

instance : DecidableRel tsGe := fun a b => Nat.decLe b.timestamp a.timestamp

instance : IsTotal Heart tsGe := ⟨fun a b => Nat.le_total b.timestamp a.timestamp⟩

instance : IsTrans Heart tsGe := ⟨fun _ _ _ hab hbc => Nat.le_trans hbc hab⟩

/-- Store read `Heart.find().sort(timestamp descending)` of line 97: all
documents, sorted by timestamp descending. -/
def sortHeartsDesc (store : List Heart) : List Heart :=
  List.insertionSort tsGe store

/-- Handler of `GET /api/hearts` (server.js lines 95-103); `findOk` is whether
the store read succeeds. -/
def getHearts (store : List Heart) (findOk : Bool) : GetResponse :=
  if findOk then .ok (sortHeartsDesc store)
  else .serverError "Failed to fetch hearts"

/-- Runs a sequence of creation requests against the store, each given by its
body, the Nominatim outcome it observes and the server clock at its
`new Date()`; every save succeeds. -/
def runCreations (reqs : List (ReqBody × GeoFetch × Nat)) (store : List Heart) :
    List Heart :=
  reqs.foldl (fun s r => (postHearts r.1 r.2.1 r.2.2 true s).2) store

/-- A valid creation appends exactly one document to the store. -/
theorem postHearts_saved (body : ReqBody) (f : GeoFetch) (now : Nat)
    (store : List Heart) (h : missingFields body = false) :
    ∃ hrt, postHearts body f now true store = (.created hrt, store ++ [hrt]) := by
  refine ⟨{ type := body.type
            latitude := body.latitude
            longitude := body.longitude
            message := if body.message.truthy then body.message else .str ""
            countryName := (getCountryFromServerLatLng f).countryName
            countryCode := (getCountryFromServerLatLng f).countryCode
            timestamp := now }, ?_⟩
  simp [postHearts, h]

/-- C1 counterexample: when the Nominatim response has a non-success HTTP
status (here 500), `getCountryFromServerLatLng` returns the transport-failure
fallback pair to its caller instead of letting the failure propagate as an
exception: the `throw` on line 47 sits inside the same `try` and is caught by
the `catch` on line 58, which converts it into the fallback result. -/
theorem notOk_converted_to_fallback :
    getCountryFromServerLatLng (.notOk 500) = ⟨"an unknown location", "XX"⟩ := rfl

/-- C1 amended: for every non-success status, the `try` body of
`getCountryFromServerLatLng` does throw an error, but that error is caught by
the function's own `catch`, which returns the fallback pair
("an unknown location", "XX"); nothing propagates to the caller of
ResolveCountry and the call is not retried. -/
theorem notOk_thrown_then_caught (s : Nat) :
    tryGetCountry (.notOk s) = .error (.networkNotOk s) ∧
    getCountryFromServerLatLng (.notOk s) = ⟨"an unknown location", "XX"⟩ :=
  ⟨rfl, rfl⟩

/-- C2: if the body passes validation and the Nominatim call fails
transport-level (network error, malformed response, thrown exception), the
error never escapes `getCountryFromServerLatLng`, which returns the fallback
pair; the creation succeeds with HTTP 201 and the stored document carries
exactly the sentinel values "an unknown location" and "XX". -/
theorem transport_failure_falls_back (body : ReqBody) (now : Nat)
    (store : List Heart) (h : missingFields body = false) :
    getCountryFromServerLatLng .transportError = ⟨"an unknown location", "XX"⟩ ∧
    ∃ hrt,
      postHearts body .transportError now true store = (.created hrt, store ++ [hrt]) ∧
      (PostResponse.created hrt).status = 201 ∧
      hrt.countryName = "an unknown location" ∧ hrt.countryCode = "XX" := by
  refine ⟨rfl, ?_⟩
  obtain ⟨hrt, hh⟩ := postHearts_saved body .transportError now store h
  refine ⟨hrt, hh, rfl, ?_, ?_⟩
  · have h1 : (postHearts body .transportError now true store).1 = .created hrt := by
      rw [hh]
    simp [postHearts, h] at h1
    rw [← h1]
    rfl
  · have h1 : (postHearts body .transportError now true store).1 = .created hrt := by
      rw [hh]
    simp [postHearts, h] at h1
    rw [← h1]
    rfl

/-- Witness for the C2 theorem at a concrete valid body. -/
theorem transport_failure_falls_back_w :
    getCountryFromServerLatLng .transportError = ⟨"an unknown location", "XX"⟩ :=
  (transport_failure_falls_back ⟨.str "redHeart", .num 1, .num 2, .undef, .undef⟩
    7 [] (by decide)).1

/-- C3 counterexample: the external call succeeds with an address whose
country field is absent but whose country_code is "fr"; the returned pair is
("the open sea", "FR"), not ("the open sea", "XX"), because line 53 uppercases
the code independently of whether a country name was found. -/
theorem open_sea_keeps_code :
    getCountryFromServerLatLng (.success (some ⟨some ⟨none, some "fr"⟩⟩))
      = ⟨"the open sea", "FR"⟩ ∧ ("FR" : String) ≠ "XX" :=
  ⟨by decide, by decide⟩

/-- C3 amended: a successful call with no resolvable address (falsy data, or
data without an address) returns exactly ("the open sea", "XX"); a successful
call whose address lacks the country field still gets countryName
"the open sea", but its countryCode is the uppercased country_code whenever
that code is present and non-empty, and is "XX" only when the code is absent
or empty. -/
theorem open_sea_cases (d : Option NominatimData) (a : Address)
    (hc : a.country = none) :
    (getCountryFromServerLatLng (.success none) = ⟨"the open sea", "XX"⟩) ∧
    (d = some ⟨none⟩ →
      getCountryFromServerLatLng (.success d) = ⟨"the open sea", "XX"⟩) ∧
    ((getCountryFromServerLatLng (.success (some ⟨some a⟩))).countryName
      = "the open sea") ∧
    ((a.country_code = none ∨ a.country_code = some "") →
      (getCountryFromServerLatLng (.success (some ⟨some a⟩))).countryCode = "XX") ∧
    (∀ cc, a.country_code = some cc → cc ≠ "" →
      (getCountryFromServerLatLng (.success (some ⟨some a⟩))).countryCode
        = toUpperCase cc) := by
  obtain ⟨c, cc⟩ := a
  simp only [Address.country] at hc
  subst hc
  refine ⟨rfl, ?_, ?_, ?_, ?_⟩
  · rintro rfl
    rfl
  · cases cc with
    | none => rfl
    | some s => simp [getCountryFromServerLatLng, tryGetCountry]
  · rintro (h | h) <;> simp only [Address.country_code] at h <;> subst h <;> rfl
  · intro s hs hne
    simp only [Address.country_code] at hs
    subst hs
    simp [getCountryFromServerLatLng, tryGetCountry, hne]

/-- Witness for the C3 amended theorem at a concrete input. -/
theorem open_sea_cases_w :
    getCountryFromServerLatLng (.success none) = ⟨"the open sea", "XX"⟩ :=
  (open_sea_cases none ⟨none, none⟩ rfl).1

/-- C4 counterexample: an address containing the country field holding the
empty string is not returned verbatim. On line 52 the expression
`country || 'the open sea'` treats the empty string as falsy, so the call
returns ("the open sea", "FR") rather than ("", "FR"). -/
theorem empty_country_not_verbatim :
    getCountryFromServerLatLng (.success (some ⟨some ⟨some "", some "fr"⟩⟩))
      = ⟨"the open sea", "FR"⟩ ∧ ("the open sea" : String) ≠ "" :=
  ⟨by decide, by decide⟩

/-- C4 amended: when the external call succeeds with an address whose country
field is present and non-empty, the returned countryName is that display name
verbatim; the returned countryCode is the uppercased country_code when the
code is present and non-empty, and "XX" when the code is absent or empty, the
resolved name being kept in either case. An empty-string country is treated
like an absent one (see the counterexample). -/
theorem country_present_verbatim (a : Address) (c : String)
    (hc : a.country = some c) (hne : c ≠ "") :
    ((getCountryFromServerLatLng (.success (some ⟨some a⟩))).countryName = c) ∧
    ((a.country_code = none ∨ a.country_code = some "") →
      (getCountryFromServerLatLng (.success (some ⟨some a⟩))).countryCode = "XX") ∧
    (∀ cc, a.country_code = some cc → cc ≠ "" →
      (getCountryFromServerLatLng (.success (some ⟨some a⟩))).countryCode
        = toUpperCase cc) := by
  obtain ⟨c', cc⟩ := a
  simp only [Address.country] at hc
  subst hc
  refine ⟨?_, ?_, ?_⟩
  · cases cc <;> simp [getCountryFromServerLatLng, tryGetCountry, hne]
  · rintro (h | h) <;> simp only [Address.country_code] at h <;> subst h <;>
      simp [getCountryFromServerLatLng, tryGetCountry, hne]
  · intro s hs hsne
    simp only [Address.country_code] at hs
    subst hs
    simp [getCountryFromServerLatLng, tryGetCountry, hne, hsne]

/-- Witness for the C4 amended theorem: country "France" with code "fr" is
stored as countryName "France". -/
theorem country_present_verbatim_w :
    (getCountryFromServerLatLng
        (.success (some ⟨some ⟨some "France", some "fr"⟩⟩))).countryName
      = "France" :=
  (country_present_verbatim ⟨some "France", some "fr"⟩ "France" rfl (by decide)).1

/-- C5: a creation request missing type, latitude, or longitude is answered
with exactly HTTP 400 and the fixed error body, the store is left unchanged
(no document persisted), and the result is the same for every Nominatim
outcome and every store-write outcome: the handler returns on line 70 before
the enrichment call or the save is reached. -/
theorem missing_fields_rejected (body : ReqBody)
    (h : body.type = .undef ∨ body.latitude = .undef ∨ body.longitude = .undef) :
    ∀ (f : GeoFetch) (now : Nat) (saveOk : Bool) (store : List Heart),
      postHearts body f now saveOk store
        = (.badRequest "Missing required fields: type, latitude, longitude", store) ∧
      (postHearts body f now saveOk store).1.status = 400 := by
  intro f now saveOk store
  have hm : missingFields body = true := by
    rcases h with h | h | h <;> simp [missingFields, h, JVal.truthy]
  constructor
  · simp [postHearts, hm]
  · simp [postHearts, hm, PostResponse.status]

/-- Witness for the C5 theorem: a body with no type field is rejected. -/
theorem missing_fields_rejected_w :
    postHearts ⟨.undef, .num 1, .num 2, .undef, .undef⟩ .transportError 0 true []
      = (.badRequest "Missing required fields: type, latitude, longitude", []) :=
  (missing_fields_rejected ⟨.undef, .num 1, .num 2, .undef, .undef⟩ (Or.inl rfl)
    .transportError 0 true []).1

/-- C6 counterexample: a request whose type field is present but holds the
empty string, with latitude and longitude both defined, is rejected with
HTTP 400: the check `!type` on line 69 tests JavaScript truthiness, and the
empty string is falsy, so validation is not a pure presence check. -/
theorem empty_type_rejected :
    (postHearts ⟨.str "", .num 1, .num 2, .undef, .undef⟩
        .transportError 0 true []).1.status = 400 := rfl

/-- Characterization of the line-69 validation test. -/
theorem missingFields_iff (body : ReqBody) :
    missingFields body = true ↔
      (body.latitude = .undef ∨ body.longitude = .undef ∨
        body.type.truthy = false) := by
  simp [missingFields, Bool.or_eq_true, beq_iff_eq, Bool.not_eq_true', or_assoc]

/-- C6 amended: the create handler answers HTTP 400 exactly when latitude or
longitude is undefined or type is falsy (undefined, null, false, 0, or the
empty string). In particular an empty-string type is rejected even though
present, while latitude and longitude are tested only against strict
undefined, with no range or NaN check. -/
theorem validation_characterization (body : ReqBody) (f : GeoFetch) (now : Nat)
    (saveOk : Bool) (store : List Heart) :
    (postHearts body f now saveOk store).1.status = 400 ↔
      (body.latitude = .undef ∨ body.longitude = .undef ∨
        body.type.truthy = false) := by
  rw [← missingFields_iff]
  by_cases hm : missingFields body
  · simp [postHearts, hm, PostResponse.status]
  · simp only [Bool.not_eq_true] at hm
    cases saveOk <;> simp [postHearts, hm, PostResponse.status]

/-- A sequence of valid creations (each save succeeding) grows the store by
exactly one document per request. -/
theorem runCreations_length (reqs : List (ReqBody × GeoFetch × Nat))
    (store : List Heart) (h : ∀ r ∈ reqs, missingFields r.1 = false) :
    (runCreations reqs store).length = store.length + reqs.length := by
  induction reqs generalizing store with
  | nil => simp [runCreations]
  | cons r rs ih =>
    have hr : missingFields r.1 = false := h r (List.mem_cons_self r rs)
    have hrs : ∀ x ∈ rs, missingFields x.1 = false :=
      fun x hx => h x (List.mem_cons_of_mem r hx)
    obtain ⟨hrt, hpost⟩ := postHearts_saved r.1 r.2.1 r.2.2 store hr
    have hstep : runCreations (r :: rs) store = runCreations rs (store ++ [hrt]) := by
      simp [runCreations, List.foldl_cons, hpost]
    rw [hstep, ih (store ++ [hrt]) hrs]
    simp [List.length_append]
    omega

/-- C7: after any number of successful creations of valid requests starting
from the empty store, the list handler returns HTTP 200 with exactly one
record per creation — a permutation of the store — ordered by timestamp
non-increasing; on a store read failure it returns HTTP 500 with the body
"Failed to fetch hearts". -/
theorem listMarkers_spec (reqs : List (ReqBody × GeoFetch × Nat))
    (h : ∀ r ∈ reqs, missingFields r.1 = false) :
    ∃ l, getHearts (runCreations reqs []) true = .ok l ∧
      l.length = reqs.length ∧
      l.Pairwise tsGe ∧
      List.Perm l (runCreations reqs []) ∧
      getHearts (runCreations reqs []) false
        = .serverError "Failed to fetch hearts" := by
  refine ⟨sortHeartsDesc (runCreations reqs []), rfl, ?_, ?_, ?_, rfl⟩
  · rw [sortHeartsDesc, List.length_insertionSort,
      runCreations_length reqs [] h]
    simp
  · exact List.sorted_insertionSort tsGe (runCreations reqs [])
  · exact List.perm_insertionSort tsGe (runCreations reqs [])

/-- Witness for the C7 theorem: two concrete creations, the second with an
earlier clock, are listed as two records. -/
theorem listMarkers_spec_w :
    ∃ l, getHearts (runCreations
        [(⟨.str "redHeart", .num 1, .num 2, .undef, .undef⟩, .transportError, 5),
         (⟨.str "yellowHeart", .num 3, .num 4, .undef, .undef⟩, .transportError, 3)]
        []) true = .ok l ∧
      l.length = 2 ∧
      l.Pairwise tsGe ∧
      List.Perm l (runCreations
        [(⟨.str "redHeart", .num 1, .num 2, .undef, .undef⟩, .transportError, 5),
         (⟨.str "yellowHeart", .num 3, .num 4, .undef, .undef⟩, .transportError, 3)]
        []) ∧
      getHearts (runCreations
        [(⟨.str "redHeart", .num 1, .num 2, .undef, .undef⟩, .transportError, 5),
         (⟨.str "yellowHeart", .num 3, .num 4, .undef, .undef⟩, .transportError, 3)]
        []) false = .serverError "Failed to fetch hearts" :=
  listMarkers_spec
    [(⟨.str "redHeart", .num 1, .num 2, .undef, .undef⟩, .transportError, 5),
     (⟨.str "yellowHeart", .num 3, .num 4, .undef, .undef⟩, .transportError, 3)]
    (by decide)

/-- C8 counterexample: when the geocoder answers with country_code "abc", the
document persisted by a valid creation has countryCode "ABC" — three
characters, neither a 2-character code nor the sentinel "XX" — because line 53
uppercases whatever string the service sent without enforcing any length. -/
theorem long_code_stored :
    ((postHearts ⟨.str "redHeart", .num 1, .num 2, .undef, .undef⟩
        (.success (some ⟨some ⟨some "Testland", some "abc"⟩⟩))
        0 true []).2.map Heart.countryCode = ["ABC"]) ∧
    ¬ (("ABC" : String).length = 2 ∨ ("ABC" : String) = "XX") :=
  ⟨by decide, by decide⟩

/-- C8 amended: the countryCode of every document a creation adds to the
store is either the sentinel "XX" or the uppercasing of the country_code
string exactly as returned by the external service; no 2-character shape is
enforced, so the claimed invariant holds only when the service itself returns
2-letter codes. -/
theorem countryCode_shape (body : ReqBody) (f : GeoFetch) (now : Nat)
    (saveOk : Bool) (store : List Heart) (hrt : Heart)
    (hmem : hrt ∈ (postHearts body f now saveOk store).2) :
    hrt ∈ store ∨ hrt.countryCode = "XX" ∨
      ∃ nd a cc, f = .success (some nd) ∧ nd.address = some a ∧
        a.country_code = some cc ∧ cc ≠ "" ∧
        hrt.countryCode = toUpperCase cc := by
  by_cases hm : missingFields body
  · left
    simpa [postHearts, hm] using hmem
  · simp only [Bool.not_eq_true] at hm
    cases saveOk with
    | false =>
      left
      simpa [postHearts, hm] using hmem
    | true =>
      rw [show (postHearts body f now true store).2 = store ++
          [{ type := body.type
             latitude := body.latitude
             longitude := body.longitude
             message := if body.message.truthy then body.message else .str ""
             countryName := (getCountryFromServerLatLng f).countryName
             countryCode := (getCountryFromServerLatLng f).countryCode
             timestamp := now }] from by simp [postHearts, hm]] at hmem
      rcases List.mem_append.mp hmem with hold | hnew
      · exact Or.inl hold
      · have heq := List.mem_singleton.mp hnew
        subst heq
        cases f with
        | notOk s => exact Or.inr (Or.inl rfl)
        | transportError => exact Or.inr (Or.inl rfl)
        | success d =>
          cases d with
          | none => exact Or.inr (Or.inl rfl)
          | some nd =>
            obtain ⟨ad⟩ := nd
            cases ad with
            | none => exact Or.inr (Or.inl rfl)
            | some a =>
              obtain ⟨c, cc⟩ := a
              cases cc with
              | none => exact Or.inr (Or.inl rfl)
              | some s =>
                by_cases hs : s = ""
                · subst hs
                  exact Or.inr (Or.inl rfl)
                · refine Or.inr (Or.inr ⟨⟨some ⟨c, some s⟩⟩, ⟨c, some s⟩, s,
                    rfl, rfl, rfl, hs, ?_⟩)
                  simp [getCountryFromServerLatLng, tryGetCountry, hs]

/-- Witness for the C8 amended theorem at a concrete creation whose
enrichment failed transport-level. -/
theorem countryCode_shape_w :
    (⟨.str "redHeart", .num 1, .num 2, .str "", "an unknown location", "XX", 0⟩
        : Heart) ∈ ([] : List Heart) ∨
    (⟨.str "redHeart", .num 1, .num 2, .str "", "an unknown location", "XX", 0⟩
        : Heart).countryCode = "XX" ∨
    ∃ nd a cc, GeoFetch.transportError = .success (some nd) ∧
      nd.address = some a ∧ a.country_code = some cc ∧ cc ≠ "" ∧
      (⟨.str "redHeart", .num 1, .num 2, .str "", "an unknown location", "XX", 0⟩
        : Heart).countryCode = toUpperCase cc :=
  countryCode_shape ⟨.str "redHeart", .num 1, .num 2, .undef, .undef⟩
    .transportError 0 true []
    ⟨.str "redHeart", .num 1, .num 2, .str "", "an unknown location", "XX", 0⟩
    (by decide)

/-- C9: the stored timestamp is server-assigned and never client-controlled:
two request bodies identical except for their client-supplied timestamp field
produce identical responses and identical stores (given the same server clock
and the same Nominatim outcome), and every document a creation returns carries
exactly the server clock value, which is at or after the instant the request
was received whenever the clock has not gone backwards since receipt. -/
theorem timestamp_server_assigned (body : ReqBody) (t1 t2 : JVal) (f : GeoFetch)
    (now recv : Nat) (saveOk : Bool) (store : List Heart)
    (hclock : recv ≤ now) :
    (postHearts { body with timestamp := t1 } f now saveOk store
      = postHearts { body with timestamp := t2 } f now saveOk store) ∧
    (∀ hrt, (postHearts body f now saveOk store).1 = .created hrt →
      hrt.timestamp = now ∧ recv ≤ hrt.timestamp) := by
  constructor
  · simp [postHearts, missingFields]
  · intro hrt hcreated
    by_cases hm : missingFields body
    · simp [postHearts, hm] at hcreated
    · simp only [Bool.not_eq_true] at hm
      cases saveOk with
      | false => simp [postHearts, hm] at hcreated
      | true =>
        simp only [postHearts, hm, Bool.false_eq_true, if_false, if_true] at hcreated
        have := PostResponse.created.inj hcreated
        subst this
        exact ⟨rfl, hclock⟩

/-- Witness for the C9 theorem: two concrete bodies differing only in their
client timestamp field (99 versus 123) behave identically, and the record is
stamped with the server clock 5, at or after the receipt instant 3. -/
theorem timestamp_server_assigned_w :
    (postHearts ⟨.str "redHeart", .num 1, .num 2, .undef, .num 99⟩
        .transportError 5 true []
      = postHearts ⟨.str "redHeart", .num 1, .num 2, .undef, .num 123⟩
        .transportError 5 true []) ∧
    (∀ hrt, (postHearts ⟨.str "redHeart", .num 1, .num 2, .undef, .undef⟩
        .transportError 5 true []).1 = .created hrt →
      hrt.timestamp = 5 ∧ 3 ≤ hrt.timestamp) :=
  timestamp_server_assigned ⟨.str "redHeart", .num 1, .num 2, .undef, .undef⟩
    (.num 99) (.num 123) .transportError 5 3 true [] (by decide)

/-- C10: a request whose latitude and longitude are present but null, or hold
any non-numeric value, passes the line-69 validation — only strict undefined
is rejected there — so instead of HTTP 400 the request proceeds to the
enrichment call (the stored country pair is the enrichment result) and to the
persistence attempt (a failing save yields HTTP 500, a succeeding one
HTTP 201); moreover a falsy message value (empty string, 0, false) is stored
as the empty string. -/
theorem null_coords_pass (body : ReqBody) (f : GeoFetch) (now : Nat)
    (store : List Heart) (hty : body.type.truthy = true)
    (hlat : body.latitude ≠ .undef) (hlng : body.longitude ≠ .undef) :
    missingFields body = false ∧
    (postHearts body f now true store).1.status ≠ 400 ∧
    (∃ hrt, postHearts body f now true store = (.created hrt, store ++ [hrt]) ∧
      hrt.countryName = (getCountryFromServerLatLng f).countryName ∧
      hrt.countryCode = (getCountryFromServerLatLng f).countryCode ∧
      (body.message.truthy = false → hrt.message = .str "")) ∧
    postHearts body f now false store
      = (.serverError "Failed to create heart", store) := by
  have hm : missingFields body = false := by
    simp [missingFields, hlat, hlng, hty]
  refine ⟨hm, ?_, ?_, ?_⟩
  · simp [postHearts, hm, PostResponse.status]
  · obtain ⟨hrt, hpost⟩ := postHearts_saved body f now store hm
    refine ⟨hrt, hpost, ?_⟩
    have h1 : (postHearts body f now true store).1 = .created hrt := by rw [hpost]
    simp [postHearts, hm] at h1
    subst h1
    refine ⟨rfl, rfl, ?_⟩
    intro hmsg
    simp [hmsg]
  · simp [postHearts, hm]

/-- Witness for the C10 theorem: latitude null, longitude a string, message 0. -/
theorem null_coords_pass_w :
    missingFields ⟨.str "redHeart", .null, .str "abc", .num 0, .undef⟩ = false ∧
    (postHearts ⟨.str "redHeart", .null, .str "abc", .num 0, .undef⟩
        (.success none) 5 true []).1.status ≠ 400 ∧
    (∃ hrt, postHearts ⟨.str "redHeart", .null, .str "abc", .num 0, .undef⟩
        (.success none) 5 true [] = (.created hrt, [] ++ [hrt]) ∧
      hrt.countryName = (getCountryFromServerLatLng (.success none)).countryName ∧
      hrt.countryCode = (getCountryFromServerLatLng (.success none)).countryCode ∧
      ((JVal.num 0).truthy = false → hrt.message = .str "")) ∧
    postHearts ⟨.str "redHeart", .null, .str "abc", .num 0, .undef⟩
        (.success none) 5 false []
      = (.serverError "Failed to create heart", []) :=
  null_coords_pass ⟨.str "redHeart", .null, .str "abc", .num 0, .undef⟩
    (.success none) 5 [] (by decide) (by decide) (by decide)
